import Mathlib

/-!
Shallow embedding of the octobe database session library (ponrove/octobe).

The embedding covers:
- the core package (part: octobe core): the ErrAlreadyUsed sentinel,
  octobe.New and Octobe.StartTransaction;
- the pgx driver file driver/postgres/pgx.go: pgxConn.Begin, pgxSession
  Commit/Rollback/Builder, pgxSegment Exec/QueryRow/Query, OpenPGXWithConn;
- the database/sql driver (sqlConn, sqlSession, sqlSegment, OpenWithConn);
- the ClickHouse native driver (nativeConn, nativeSession, nativeSegment,
  OpenNativeWithConn).

Go concepts are modelled as follows: errors are values of an inductive GoErr
type (nil error = none of Option GoErr); pointer-receiver mutation becomes
explicit state passing (every method returns the updated receiver); the
backend client libraries the drivers wrap are abstract records of response
functions; each operation additionally returns the list of backend calls it
made, so that claims about which backend primitives are invoked can be
stated.  Contexts and destination scan pointers carry no information the
claims need and are dropped.
-/

namespace Octobe

/-- Go error values as they appear in the library: the exported sentinel
octobe.ErrAlreadyUsed, errors made by errors.New with a fixed message,
abstract backend errors, a single fmt.Errorf wrapping with one verb, and the
dual wrapping used by sqlSegment.Query for callback plus close errors. -/
inductive GoErr where
  | errAlreadyUsed : GoErr
  | errString : String → GoErr
  | backend : Nat → GoErr
  | wrapped : String → GoErr → GoErr
  | dualWrap : GoErr → GoErr → GoErr
  | dualWrapNilClose : GoErr → GoErr
deriving DecidableEq, Repr

/-- The message a Go error formats to, mirroring errors.New messages and the
fmt.Errorf format strings in the source. -/
def GoErr.message : GoErr → String
  | .errAlreadyUsed => "query already used"
  | .errString s => s
  | .backend n => "backend error " ++ toString n
  | .wrapped c e => c ++ ": " ++ e.message
  | .dualWrap e e2 =>
      "error in callback: " ++ e.message ++ ", error in closing rows: " ++ e2.message
  | .dualWrapNilClose e =>
      "error in callback: " ++ e.message ++ ", error in closing rows: %!w(<nil>)"

/-- octobe core: var ErrAlreadyUsed = errors.New("query already used"). -/
def ErrAlreadyUsed : GoErr := GoErr.errAlreadyUsed

/-- Query arguments are abstract for the library; an argument is modelled as a
number. -/
abbrev Arg := Nat

/-- ExecResult from driver/postgres/postgres.go: the rows affected by an
effectful query. -/
structure ExecResult where
  rowsAffected : Int
deriving DecidableEq, Repr

/-- Abstract row cursor returned by a backend Query primitive: its terminal
error (what Err() reports after iteration) and the error its Close() call
returns.  The pgx cursor Close() returns nothing, so the pgx code never
reads closeErr. -/
structure RowsVal where
  err : Option GoErr
  closeErr : Option GoErr
deriving DecidableEq, Repr

/-! ## pgx driver: segment (driver/postgres/pgx.go) -/

/-- Abstract pgx backend: the responses of the wrapped pgx connection and of
the transaction handle.  Exec primitives answer with the rows-affected count
of the command tag. -/
structure PgxBackend where
  connExec : String → List Arg → Except GoErr Int
  txExec : String → List Arg → Except GoErr Int
  connQueryRowScan : String → List Arg → Option GoErr
  txQueryRowScan : String → List Arg → Option GoErr
  connQuery : String → List Arg → Except GoErr RowsVal
  txQuery : String → List Arg → Except GoErr RowsVal

/-- Backend calls a pgx segment operation can make. -/
inductive PgxCall where
  | connExec : String → List Arg → PgxCall
  | txExec : String → List Arg → PgxCall
  | connQueryRow : String → List Arg → PgxCall
  | txQueryRow : String → List Arg → PgxCall
  | connQuery : String → List Arg → PgxCall
  | txQuery : String → List Arg → PgxCall
  | rowsClose : PgxCall
deriving DecidableEq, Repr

/-- pgxSegment: query text, arguments, used flag, and whether the segment
holds a non-nil transaction handle (tx = true models s.tx ≠ nil). -/
structure PgxSegment where
  query : String
  args : List Arg
  used : Bool
  tx : Bool
deriving DecidableEq, Repr

/-- pgxSegment.Exec: returns ErrAlreadyUsed when used, else marks the segment
used (deferred s.use()) and delegates to the transaction handle when present,
else to the connection. -/
def PgxSegment.Exec (b : PgxBackend) (s : PgxSegment) :
    Except GoErr ExecResult × PgxSegment × List PgxCall :=
  if s.used then
    (Except.error GoErr.errAlreadyUsed, s, [])
  else
    let s' : PgxSegment := { s with used := true }
    if s.tx then
      match b.txExec s.query s.args with
      | Except.error e => (Except.error e, s', [PgxCall.txExec s.query s.args])
      | Except.ok n => (Except.ok { rowsAffected := n }, s', [PgxCall.txExec s.query s.args])
    else
      match b.connExec s.query s.args with
      | Except.error e => (Except.error e, s', [PgxCall.connExec s.query s.args])
      | Except.ok n => (Except.ok { rowsAffected := n }, s', [PgxCall.connExec s.query s.args])

/-- pgxSegment.QueryRow: returns ErrAlreadyUsed when used, else marks used and
returns the Scan result of the one-row query on the transaction handle when
present, else on the connection. -/
def PgxSegment.QueryRow (b : PgxBackend) (s : PgxSegment) :
    Option GoErr × PgxSegment × List PgxCall :=
  if s.used then
    (some GoErr.errAlreadyUsed, s, [])
  else
    let s' : PgxSegment := { s with used := true }
    if s.tx then
      (b.txQueryRowScan s.query s.args, s', [PgxCall.txQueryRow s.query s.args])
    else
      (b.connQueryRowScan s.query s.args, s', [PgxCall.connQueryRow s.query s.args])

/-- The backend query primitive a pgx segment uses: the transaction handle
when present, else the connection. -/
def PgxSegment.queryPrim (b : PgxBackend) (s : PgxSegment) : Except GoErr RowsVal :=
  if s.tx then b.txQuery s.query s.args else b.connQuery s.query s.args

/-- The trace event matching PgxSegment.queryPrim. -/
def PgxSegment.queryCallEv (s : PgxSegment) : PgxCall :=
  if s.tx then PgxCall.txQuery s.query s.args else PgxCall.connQuery s.query s.args

/-- pgxSegment.Query: returns ErrAlreadyUsed when used; else marks used and
runs the backend query.  On query error that error is returned and the
callback never runs.  On success the cursor is passed to the callback and
closed afterwards (deferred rows.Close()); the callback error, when non-nil,
is returned, else nil is returned — the cursor terminal error rows.Err() is
never consulted. -/
def PgxSegment.Query (b : PgxBackend) (cb : RowsVal → Option GoErr) (s : PgxSegment) :
    Option GoErr × PgxSegment × List PgxCall :=
  if s.used then
    (some GoErr.errAlreadyUsed, s, [])
  else
    let s' : PgxSegment := { s with used := true }
    match s.queryPrim b with
    | Except.error e => (some e, s', [s.queryCallEv])
    | Except.ok rows =>
      match cb rows with
      | some e => (some e, s', [s.queryCallEv, PgxCall.rowsClose])
      | none => (none, s', [s.queryCallEv, PgxCall.rowsClose])

/-! ## database/sql driver: segment (sqlSegment) -/

instance {ε α : Type} [DecidableEq ε] [DecidableEq α] : DecidableEq (Except ε α) := fun x y =>
  match x, y with
  | Except.error a, Except.error b =>
    if h : a = b then isTrue (by rw [h]) else isFalse (by simp [h])
  | Except.error _, Except.ok _ => isFalse (by simp)
  | Except.ok _, Except.error _ => isFalse (by simp)
  | Except.ok a, Except.ok b =>
    if h : a = b then isTrue (by rw [h]) else isFalse (by simp [h])

instance {ε α : Type} [Repr ε] [Repr α] : Repr (Except ε α) where
  reprPrec x _ :=
    match x with
    | Except.error e => Std.Format.text "error " ++ repr e
    | Except.ok a => Std.Format.text "ok " ++ repr a

/-- The driver.Result answer of an ExecContext call: its RowsAffected method
may itself fail, which the source wraps with a message. -/
structure SqlResult where
  rowsAffected : Except GoErr Int
deriving DecidableEq, Repr

/-- Abstract database/sql backend responses of the db handle and of the
transaction handle. -/
structure SqlBackend where
  dbExec : String → List Arg → Except GoErr SqlResult
  txExec : String → List Arg → Except GoErr SqlResult
  dbQueryRowScan : String → List Arg → Option GoErr
  txQueryRowScan : String → List Arg → Option GoErr
  dbQuery : String → List Arg → Except GoErr RowsVal
  txQuery : String → List Arg → Except GoErr RowsVal

/-- Backend calls a sql segment operation can make. -/
inductive SqlCall where
  | dbExec : String → List Arg → SqlCall
  | txExec : String → List Arg → SqlCall
  | dbQueryRow : String → List Arg → SqlCall
  | txQueryRow : String → List Arg → SqlCall
  | dbQuery : String → List Arg → SqlCall
  | txQuery : String → List Arg → SqlCall
  | rowsClose : SqlCall
deriving DecidableEq, Repr

/-- sqlSegment: query text, arguments, used flag, and whether the segment
holds a non-nil transaction handle. -/
structure SqlSegment where
  query : String
  args : List Arg
  used : Bool
  tx : Bool
deriving DecidableEq, Repr

/-- sqlSegment.Exec: ErrAlreadyUsed when used; else marks used, runs
ExecContext on the db when no transaction is present, else on the
transaction, and on success asks the result for RowsAffected, wrapping a
failure of that second step. -/
def SqlSegment.Exec (b : SqlBackend) (s : SqlSegment) :
    Except GoErr ExecResult × SqlSegment × List SqlCall :=
  if s.used then
    (Except.error GoErr.errAlreadyUsed, s, [])
  else
    let s' : SqlSegment := { s with used := true }
    if s.tx then
      match b.txExec s.query s.args with
      | Except.error e => (Except.error e, s', [SqlCall.txExec s.query s.args])
      | Except.ok res =>
        match res.rowsAffected with
        | Except.error e =>
            (Except.error (GoErr.wrapped "failed to get rows affected" e), s',
              [SqlCall.txExec s.query s.args])
        | Except.ok n => (Except.ok { rowsAffected := n }, s', [SqlCall.txExec s.query s.args])
    else
      match b.dbExec s.query s.args with
      | Except.error e => (Except.error e, s', [SqlCall.dbExec s.query s.args])
      | Except.ok res =>
        match res.rowsAffected with
        | Except.error e =>
            (Except.error (GoErr.wrapped "failed to get rows affected" e), s',
              [SqlCall.dbExec s.query s.args])
        | Except.ok n => (Except.ok { rowsAffected := n }, s', [SqlCall.dbExec s.query s.args])

/-- sqlSegment.QueryRow: ErrAlreadyUsed when used; else marks used and returns
the Scan result of the one-row query. -/
def SqlSegment.QueryRow (b : SqlBackend) (s : SqlSegment) :
    Option GoErr × SqlSegment × List SqlCall :=
  if s.used then
    (some GoErr.errAlreadyUsed, s, [])
  else
    let s' : SqlSegment := { s with used := true }
    if s.tx then
      (b.txQueryRowScan s.query s.args, s', [SqlCall.txQueryRow s.query s.args])
    else
      (b.dbQueryRowScan s.query s.args, s', [SqlCall.dbQueryRow s.query s.args])

/-- The backend query primitive a sql segment uses. -/
def SqlSegment.queryPrim (b : SqlBackend) (s : SqlSegment) : Except GoErr RowsVal :=
  if s.tx then b.txQuery s.query s.args else b.dbQuery s.query s.args

/-- The trace event matching SqlSegment.queryPrim. -/
def SqlSegment.queryCallEv (s : SqlSegment) : SqlCall :=
  if s.tx then SqlCall.txQuery s.query s.args else SqlCall.dbQuery s.query s.args

/-- sqlSegment.Query: ErrAlreadyUsed when used; else marks used and runs the
backend query.  On query error that error is returned without running the
callback.  On success the callback receives the cursor; if it returns a
non-nil error the cursor is closed and both the callback error and the close
result are wrapped together ("error in callback: %w, error in closing rows:
%w"); if the callback returns nil the result of rows.Close() is returned. -/
def SqlSegment.Query (b : SqlBackend) (cb : RowsVal → Option GoErr) (s : SqlSegment) :
    Option GoErr × SqlSegment × List SqlCall :=
  if s.used then
    (some GoErr.errAlreadyUsed, s, [])
  else
    let s' : SqlSegment := { s with used := true }
    match s.queryPrim b with
    | Except.error e => (some e, s', [s.queryCallEv])
    | Except.ok rows =>
      match cb rows with
      | some e =>
        match rows.closeErr with
        | some e2 => (some (GoErr.dualWrap e e2), s', [s.queryCallEv, SqlCall.rowsClose])
        | none => (some (GoErr.dualWrapNilClose e), s', [s.queryCallEv, SqlCall.rowsClose])
      | none => (rows.closeErr, s', [s.queryCallEv, SqlCall.rowsClose])

/-! ## ClickHouse native driver: segment (nativeSegment) -/

/-- Abstract ClickHouse native backend responses. -/
structure NativeBackend where
  exec : String → List Arg → Option GoErr
  queryRowScan : String → List Arg → Option GoErr
  query : String → List Arg → Except GoErr RowsVal

/-- Backend calls a native segment operation can make. -/
inductive NativeCall where
  | exec : String → List Arg → NativeCall
  | queryRow : String → List Arg → NativeCall
  | query : String → List Arg → NativeCall
  | rowsClose : NativeCall
deriving DecidableEq, Repr

/-- nativeSegment: query text, arguments and used flag; the ClickHouse driver
has no transaction handle. -/
structure NativeSegment where
  query : String
  args : List Arg
  used : Bool
deriving DecidableEq, Repr

/-- nativeSegment.Exec: ErrAlreadyUsed when used; else marks used and runs
conn.Exec. -/
def NativeSegment.Exec (b : NativeBackend) (s : NativeSegment) :
    Option GoErr × NativeSegment × List NativeCall :=
  if s.used then
    (some GoErr.errAlreadyUsed, s, [])
  else
    (b.exec s.query s.args, { s with used := true }, [NativeCall.exec s.query s.args])

/-- nativeSegment.QueryRow: ErrAlreadyUsed when used; else marks used and
returns the Scan result of conn.QueryRow. -/
def NativeSegment.QueryRow (b : NativeBackend) (s : NativeSegment) :
    Option GoErr × NativeSegment × List NativeCall :=
  if s.used then
    (some GoErr.errAlreadyUsed, s, [])
  else
    (b.queryRowScan s.query s.args, { s with used := true }, [NativeCall.queryRow s.query s.args])

/-- nativeSegment.Query: ErrAlreadyUsed when used; else marks used and runs
conn.Query.  On query error that error is returned without running the
callback.  On success the callback receives the cursor, the cursor is closed
afterwards (deferred rows.Close(), its error discarded); a non-nil callback
error is returned, else rows.Err() is returned. -/
def NativeSegment.Query (b : NativeBackend) (cb : RowsVal → Option GoErr) (s : NativeSegment) :
    Option GoErr × NativeSegment × List NativeCall :=
  if s.used then
    (some GoErr.errAlreadyUsed, s, [])
  else
    let s' : NativeSegment := { s with used := true }
    match b.query s.query s.args with
    | Except.error e => (some e, s', [NativeCall.query s.query s.args])
    | Except.ok rows =>
      match cb rows with
      | some e => (some e, s', [NativeCall.query s.query s.args, NativeCall.rowsClose])
      | none => (rows.err, s', [NativeCall.query s.query s.args, NativeCall.rowsClose])

/-! ## Sessions and their Commit/Rollback/Builder methods -/

/-- pgx transaction options, the four fields of pgx.TxOptions the driver
forwards. -/
structure PgxTxOptions where
  isoLevel : String
  accessMode : String
  deferrableMode : String
  beginQuery : String
deriving DecidableEq, Repr

/-- database/sql transaction options, the fields of driver.TxOptions the
driver forwards. -/
structure SqlTxOptions where
  isolation : Nat
  readOnly : Bool
deriving DecidableEq, Repr

/-- Responses of a backend transaction handle to Commit and Rollback. -/
structure TxBackend where
  txCommit : Option GoErr
  txRollback : Option GoErr

/-- Calls a session method can make on the backend transaction handle. -/
inductive SessCall where
  | txCommit : SessCall
  | txRollback : SessCall
deriving DecidableEq, Repr

/-- pgxSession: the resolved configuration (transaction options or none),
whether a non-nil transaction handle is held, and the committed flag. -/
structure PgxSession where
  txOptions : Option PgxTxOptions
  tx : Bool
  committed : Bool
deriving DecidableEq, Repr

/-- pgxSession.Commit: rejects a session already marked committed; rejects a
session without transaction options; otherwise delegates to tx.Commit and —
through the deferred function — marks the session committed whatever the
backend answered. -/
def PgxSession.Commit (b : TxBackend) (s : PgxSession) :
    Option GoErr × PgxSession × List SessCall :=
  if s.committed then
    (some (GoErr.errString "cannot commit a session that has already been committed"), s, [])
  else if s.txOptions = none then
    (some (GoErr.errString "cannot commit without transaction"), s, [])
  else
    (b.txCommit, { s with committed := true }, [SessCall.txCommit])

/-- pgxSession.Rollback: rejects a session without transaction options, else
delegates to tx.Rollback. -/
def PgxSession.Rollback (b : TxBackend) (s : PgxSession) :
    Option GoErr × PgxSession × List SessCall :=
  if s.txOptions = none then
    (some (GoErr.errString "cannot rollback without transaction"), s, [])
  else
    (b.txRollback, s, [SessCall.txRollback])

/-- pgxSession.Builder: a fresh segment for the given query, unused, sharing
the transaction handle of the session. -/
def PgxSession.Builder (s : PgxSession) (q : String) : PgxSegment :=
  { query := q, args := [], used := false, tx := s.tx }

/-- sqlSession: the resolved configuration, the transaction handle presence
and the committed flag. -/
structure SqlSession where
  txOptions : Option SqlTxOptions
  tx : Bool
  committed : Bool
deriving DecidableEq, Repr

/-- sqlSession.Commit: rejects a session without transaction options;
otherwise delegates to tx.Commit and — through the deferred function — marks
the session committed whatever the backend answered.  Unlike the pgx
adapter, there is no guard against a second commit. -/
def SqlSession.Commit (b : TxBackend) (s : SqlSession) :
    Option GoErr × SqlSession × List SessCall :=
  if s.txOptions = none then
    (some (GoErr.errString "cannot commit without transaction"), s, [])
  else
    (b.txCommit, { s with committed := true }, [SessCall.txCommit])

/-- sqlSession.Rollback: rejects a session without transaction options, else
delegates to tx.Rollback. -/
def SqlSession.Rollback (b : TxBackend) (s : SqlSession) :
    Option GoErr × SqlSession × List SessCall :=
  if s.txOptions = none then
    (some (GoErr.errString "cannot rollback without transaction"), s, [])
  else
    (b.txRollback, s, [SessCall.txRollback])

/-- sqlSession.Builder: a fresh segment for the given query, unused, sharing
the transaction handle of the session. -/
def SqlSession.Builder (s : SqlSession) (q : String) : SqlSegment :=
  { query := q, args := [], used := false, tx := s.tx }

/-- nativeSession: the ClickHouse session state (its config struct is empty;
only the committed flag remains). -/
structure NativeSession where
  committed : Bool
deriving DecidableEq, Repr

/-- nativeSession.Commit: a no-op for ClickHouse, always nil, no backend
call. -/
def NativeSession.Commit (s : NativeSession) :
    Option GoErr × NativeSession × List SessCall :=
  (none, s, [])

/-- nativeSession.Rollback: a no-op for ClickHouse, always nil, no backend
call. -/
def NativeSession.Rollback (s : NativeSession) :
    Option GoErr × NativeSession × List SessCall :=
  (none, s, [])

/-- nativeSession.Builder: a fresh unused segment for the given query. -/
def NativeSession.Builder (_ : NativeSession) (q : String) : NativeSegment :=
  { query := q, args := [], used := false }

/-! ## Connection Begin: option folding and session construction -/

/-- pgxConfig: the only field is the optional transaction options. -/
structure PgxConfig where
  txOptions : Option PgxTxOptions
deriving DecidableEq, Repr

/-- WithPGXTxOptions / WithTransaction: an option function setting the
transaction options of the config.  Go option functions mutate the config
through a pointer; they are modelled as config-to-config updates. -/
def WithPGXTxOptions (o : PgxTxOptions) : PgxConfig → PgxConfig :=
  fun c => { c with txOptions := some o }

/-- The option-folding loop of pgxConn.Begin: the zero-value config, then
each supplied option applied in order. -/
def pgxResolveConfig (opts : List (PgxConfig → PgxConfig)) : PgxConfig :=
  opts.foldl (fun c o => o c) { txOptions := none }

/-- Responses of the backend begin-transaction primitives. -/
structure PgxBeginBackend where
  beginTx : PgxTxOptions → Except GoErr Unit

/-- Responses of the database/sql begin-transaction primitive. -/
structure SqlBeginBackend where
  beginTx : SqlTxOptions → Except GoErr Unit

/-- Begin-level backend calls. -/
inductive BeginCall where
  | pgxBeginTx : PgxTxOptions → BeginCall
  | sqlBeginTx : SqlTxOptions → BeginCall
deriving DecidableEq, Repr

/-- pgxConn.Begin: folds the options into a config; with transaction options
present invokes BeginTx with exactly those options, failing with its error,
else wraps the obtained handle; without transaction options returns a
session with a nil transaction handle and no backend call. -/
def pgxConnBegin (b : PgxBeginBackend) (opts : List (PgxConfig → PgxConfig)) :
    Except GoErr PgxSession × List BeginCall :=
  let cfg := pgxResolveConfig opts
  match cfg.txOptions with
  | none =>
    (Except.ok { txOptions := none, tx := false, committed := false }, [])
  | some o =>
    match b.beginTx o with
    | Except.error e => (Except.error e, [BeginCall.pgxBeginTx o])
    | Except.ok _ =>
      (Except.ok { txOptions := some o, tx := true, committed := false },
        [BeginCall.pgxBeginTx o])

/-- sqlConfig: the only field is the optional transaction options. -/
structure SqlConfig where
  txOptions : Option SqlTxOptions
deriving DecidableEq, Repr

/-- WithSQLTxOptions: the option function of the database/sql driver. -/
def WithSQLTxOptions (o : SqlTxOptions) : SqlConfig → SqlConfig :=
  fun c => { c with txOptions := some o }

/-- The option-folding loop of sqlConn.Begin. -/
def sqlResolveConfig (opts : List (SqlConfig → SqlConfig)) : SqlConfig :=
  opts.foldl (fun c o => o c) { txOptions := none }

/-- sqlConn.Begin: same shape as pgxConn.Begin over the database/sql
backend. -/
def sqlConnBegin (b : SqlBeginBackend) (opts : List (SqlConfig → SqlConfig)) :
    Except GoErr SqlSession × List BeginCall :=
  let cfg := sqlResolveConfig opts
  match cfg.txOptions with
  | none =>
    (Except.ok { txOptions := none, tx := false, committed := false }, [])
  | some o =>
    match b.beginTx o with
    | Except.error e => (Except.error e, [BeginCall.sqlBeginTx o])
    | Except.ok _ =>
      (Except.ok { txOptions := some o, tx := true, committed := false },
        [BeginCall.sqlBeginTx o])

/-- The ClickHouse native config struct is empty. -/
abbrev NativeConfig := Unit

/-- nativeConn.Begin: folds the (field-less) options and returns a session;
no begin-transaction primitive exists, so no backend call ever happens and
Begin never fails. -/
def nativeConnBegin (opts : List (NativeConfig → NativeConfig)) :
    Except GoErr NativeSession × List BeginCall :=
  let _cfg := opts.foldl (fun c o => o c) ()
  (Except.ok { committed := false }, [])

/-! ## Open constructors and octobe.New -/

/-- pgxConn: the driver record holding the adopted connection handle;
handles are plain numbers, a nil Go handle is none. -/
structure PgxConn where
  conn : Nat
deriving DecidableEq, Repr

/-- sqlConn: the driver record holding the adopted database handle. -/
structure SqlConn where
  sqlDB : Nat
deriving DecidableEq, Repr

/-- nativeConn: the driver record holding the adopted connection handle. -/
structure NativeConn where
  conn : Nat
deriving DecidableEq, Repr

/-- OpenPGXWithConn: yields an Open function that rejects a nil handle with
the error "conn is nil" and otherwise wraps the handle. -/
def OpenPGXWithConn (c : Option Nat) : Unit → Except GoErr PgxConn :=
  fun _ =>
    match c with
    | none => Except.error (GoErr.errString "conn is nil")
    | some h => Except.ok { conn := h }

/-- OpenWithConn (database/sql): yields an Open function that rejects a nil
handle with the error "db is nil" and otherwise wraps the handle. -/
def OpenWithConn (db : Option Nat) : Unit → Except GoErr SqlConn :=
  fun _ =>
    match db with
    | none => Except.error (GoErr.errString "db is nil")
    | some h => Except.ok { sqlDB := h }

/-- OpenNativeWithConn (ClickHouse): yields an Open function that rejects a
nil handle with the error "conn is nil" and otherwise wraps the handle. -/
def OpenNativeWithConn (c : Option Nat) : Unit → Except GoErr NativeConn :=
  fun _ =>
    match c with
    | none => Except.error (GoErr.errString "conn is nil")
    | some h => Except.ok { conn := h }

/-- The Octobe instance returned by octobe.New, holding the driver. -/
structure OctobeInst (D : Type) where
  driver : D

/-- octobe.New: runs the Open function; on error returns nil instance and
the error, else wraps the driver. -/
def New {D : Type} (init : Unit → Except GoErr D) : Except GoErr (OctobeInst D) :=
  match init () with
  | Except.error e => Except.error e
  | Except.ok d => Except.ok { driver := d }

/-! ## Octobe.StartTransaction -/

/-- Outcome of the user callback passed to StartTransaction: a normal return
carrying a Go error (or nil), or a panic carrying its payload. -/
inductive CbOutcome where
  | ret : Option GoErr → CbOutcome
  | panicked : String → CbOutcome
deriving DecidableEq, Repr

/-- Outcome of a StartTransaction call: a returned Go error (or nil), or a
propagated panic with its payload. -/
inductive STResult where
  | ret : Option GoErr → STResult
  | panicked : String → STResult
deriving DecidableEq, Repr

/-- Session-level events StartTransaction can trigger: the Begin call, each
operation the callback performs (numbered), Commit and Rollback. -/
inductive Ev where
  | begin : Ev
  | op : Nat → Ev
  | commit : Ev
  | rollback : Ev
deriving DecidableEq, Repr

/-- Environment of one StartTransaction call: the result of Begin, the
operations the callback performs before finishing, the callback outcome, and
the Commit/Rollback answers of the session. -/
structure STEnv where
  beginErr : Option GoErr
  cbOps : List Nat
  cbOutcome : CbOutcome
  commitErr : Option GoErr
  rollbackErr : Option GoErr
deriving DecidableEq, Repr

/-- Octobe.StartTransaction, instrumented with the trace of session-level
calls it makes.  The deferred recover/rollback function of the source is
unfolded into the exit paths: Begin failure returns that error at once; a
callback panic triggers Rollback and re-panics with the original payload; a
callback error triggers Rollback and is returned unchanged; on a nil
callback error Commit runs, and when Commit itself fails the deferred
function sees the non-nil named return and triggers Rollback as well. -/
def StartTransaction (env : STEnv) : STResult × List Ev :=
  match env.beginErr with
  | some e => (STResult.ret (some e), [Ev.begin])
  | none =>
    let opsTrace := env.cbOps.map Ev.op
    match env.cbOutcome with
    | CbOutcome.panicked p =>
      (STResult.panicked p, Ev.begin :: opsTrace ++ [Ev.rollback])
    | CbOutcome.ret (some e) =>
      (STResult.ret (some e), Ev.begin :: opsTrace ++ [Ev.rollback])
    | CbOutcome.ret none =>
      match env.commitErr with
      | none => (STResult.ret none, Ev.begin :: opsTrace ++ [Ev.commit])
      | some ce =>
        (STResult.ret (some ce), Ev.begin :: opsTrace ++ [Ev.commit, Ev.rollback])

/-! ## Terminal-method dispatch, a uniform view of Exec / QueryRow / Query -/

/-- One of the three terminal methods of a segment; Query carries its
callback. -/
inductive TerminalMethod where
  | exec : TerminalMethod
  | queryRow : TerminalMethod
  | query : (RowsVal → Option GoErr) → TerminalMethod

/-- Run a terminal method on a pgx segment, projecting the result to its
error component. -/
def PgxSegment.terminal (m : TerminalMethod) (b : PgxBackend) (s : PgxSegment) :
    Option GoErr × PgxSegment × List PgxCall :=
  match m with
  | TerminalMethod.exec =>
    match PgxSegment.Exec b s with
    | (Except.error e, s', c) => (some e, s', c)
    | (Except.ok _, s', c) => (none, s', c)
  | TerminalMethod.queryRow => PgxSegment.QueryRow b s
  | TerminalMethod.query cb => PgxSegment.Query b cb s

/-- Run a terminal method on a database/sql segment, projecting the result
to its error component. -/
def SqlSegment.terminal (m : TerminalMethod) (b : SqlBackend) (s : SqlSegment) :
    Option GoErr × SqlSegment × List SqlCall :=
  match m with
  | TerminalMethod.exec =>
    match SqlSegment.Exec b s with
    | (Except.error e, s', c) => (some e, s', c)
    | (Except.ok _, s', c) => (none, s', c)
  | TerminalMethod.queryRow => SqlSegment.QueryRow b s
  | TerminalMethod.query cb => SqlSegment.Query b cb s

/-- Run a terminal method on a native segment. -/
def NativeSegment.terminal (m : TerminalMethod) (b : NativeBackend) (s : NativeSegment) :
    Option GoErr × NativeSegment × List NativeCall :=
  match m with
  | TerminalMethod.exec => NativeSegment.Exec b s
  | TerminalMethod.queryRow => NativeSegment.QueryRow b s
  | TerminalMethod.query cb => NativeSegment.Query b cb s

/-! ## Concrete backends and segments used by the closed witness theorems -/

/-- A benign concrete pgx backend. -/
def pgxB0 : PgxBackend :=
  { connExec := fun _ _ => Except.ok 0, txExec := fun _ _ => Except.ok 0,
    connQueryRowScan := fun _ _ => none, txQueryRowScan := fun _ _ => none,
    connQuery := fun _ _ => Except.ok { err := none, closeErr := none },
    txQuery := fun _ _ => Except.ok { err := none, closeErr := none } }

/-- A benign concrete database/sql backend. -/
def sqlB0 : SqlBackend :=
  { dbExec := fun _ _ => Except.ok { rowsAffected := Except.ok 0 },
    txExec := fun _ _ => Except.ok { rowsAffected := Except.ok 0 },
    dbQueryRowScan := fun _ _ => none, txQueryRowScan := fun _ _ => none,
    dbQuery := fun _ _ => Except.ok { err := none, closeErr := none },
    txQuery := fun _ _ => Except.ok { err := none, closeErr := none } }

/-- A benign concrete native backend. -/
def natB0 : NativeBackend :=
  { exec := fun _ _ => none, queryRowScan := fun _ _ => none,
    query := fun _ _ => Except.ok { err := none, closeErr := none } }

/-- A pgx segment that has already been used. -/
def pgxSegUsed : PgxSegment := { query := "q", args := [], used := true, tx := false }

/-- A database/sql segment that has already been used. -/
def sqlSegUsed : SqlSegment := { query := "q", args := [], used := true, tx := false }

/-- A native segment that has already been used. -/
def natSegUsed : NativeSegment := { query := "q", args := [], used := true }

/-! ## C1 -/

/-- C1: on every driver (pgx, database/sql, ClickHouse native), a terminal
method called on a used segment returns the ErrAlreadyUsed sentinel, leaves
the segment unchanged and performs no backend call; and every terminal call
leaves the segment marked used, so after any first terminal call —
successful or failed — every later terminal call answers ErrAlreadyUsed
without touching the backend. -/
theorem c1_segment_single_use :
    (∀ (m : TerminalMethod) (b : PgxBackend) (s : PgxSegment),
      (s.used = true → PgxSegment.terminal m b s = (some GoErr.errAlreadyUsed, s, []))
      ∧ (PgxSegment.terminal m b s).2.1.used = true)
    ∧ (∀ (m : TerminalMethod) (b : SqlBackend) (s : SqlSegment),
      (s.used = true → SqlSegment.terminal m b s = (some GoErr.errAlreadyUsed, s, []))
      ∧ (SqlSegment.terminal m b s).2.1.used = true)
    ∧ (∀ (m : TerminalMethod) (b : NativeBackend) (s : NativeSegment),
      (s.used = true → NativeSegment.terminal m b s = (some GoErr.errAlreadyUsed, s, []))
      ∧ (NativeSegment.terminal m b s).2.1.used = true) := by
  refine ⟨fun m b s => ⟨fun h => ?_, ?_⟩, fun m b s => ⟨fun h => ?_, ?_⟩,
    fun m b s => ⟨fun h => ?_, ?_⟩⟩
  · cases m <;> simp [PgxSegment.terminal, PgxSegment.Exec, PgxSegment.QueryRow,
      PgxSegment.Query, h]
  · cases m with
    | exec =>
      cases hu : s.used
      · cases ht : s.tx
        · rcases hbe : b.connExec s.query s.args with e | n <;>
            simp [PgxSegment.terminal, PgxSegment.Exec, hu, ht, hbe]
        · rcases hbe : b.txExec s.query s.args with e | n <;>
            simp [PgxSegment.terminal, PgxSegment.Exec, hu, ht, hbe]
      · simp [PgxSegment.terminal, PgxSegment.Exec, hu]
    | queryRow =>
      cases hu : s.used
      · cases ht : s.tx <;>
          simp [PgxSegment.terminal, PgxSegment.QueryRow, hu, ht]
      · simp [PgxSegment.terminal, PgxSegment.QueryRow, hu]
    | query cb =>
      cases hu : s.used
      · rcases hq : s.queryPrim b with e | rows
        · simp [PgxSegment.terminal, PgxSegment.Query, hu, hq]
        · rcases hcb : cb rows with _ | e <;>
            simp [PgxSegment.terminal, PgxSegment.Query, hu, hq, hcb]
      · simp [PgxSegment.terminal, PgxSegment.Query, hu]
  · cases m <;> simp [SqlSegment.terminal, SqlSegment.Exec, SqlSegment.QueryRow,
      SqlSegment.Query, h]
  · cases m with
    | exec =>
      cases hu : s.used
      · cases ht : s.tx
        · rcases hbe : b.dbExec s.query s.args with e | res
          · simp [SqlSegment.terminal, SqlSegment.Exec, hu, ht, hbe]
          · rcases hra : res.rowsAffected with e | n <;>
              simp [SqlSegment.terminal, SqlSegment.Exec, hu, ht, hbe, hra]
        · rcases hbe : b.txExec s.query s.args with e | res
          · simp [SqlSegment.terminal, SqlSegment.Exec, hu, ht, hbe]
          · rcases hra : res.rowsAffected with e | n <;>
              simp [SqlSegment.terminal, SqlSegment.Exec, hu, ht, hbe, hra]
      · simp [SqlSegment.terminal, SqlSegment.Exec, hu]
    | queryRow =>
      cases hu : s.used
      · cases ht : s.tx <;>
          simp [SqlSegment.terminal, SqlSegment.QueryRow, hu, ht]
      · simp [SqlSegment.terminal, SqlSegment.QueryRow, hu]
    | query cb =>
      cases hu : s.used
      · rcases hq : s.queryPrim b with e | rows
        · simp [SqlSegment.terminal, SqlSegment.Query, hu, hq]
        · rcases hcb : cb rows with _ | e
          · simp [SqlSegment.terminal, SqlSegment.Query, hu, hq, hcb]
          · rcases hce : rows.closeErr with _ | e2 <;>
              simp [SqlSegment.terminal, SqlSegment.Query, hu, hq, hcb, hce]
      · simp [SqlSegment.terminal, SqlSegment.Query, hu]
  · cases m <;> simp [NativeSegment.terminal, NativeSegment.Exec, NativeSegment.QueryRow,
      NativeSegment.Query, h]
  · cases m with
    | exec =>
      cases hu : s.used <;> simp [NativeSegment.terminal, NativeSegment.Exec, hu]
    | queryRow =>
      cases hu : s.used <;> simp [NativeSegment.terminal, NativeSegment.QueryRow, hu]
    | query cb =>
      cases hu : s.used
      · rcases hq : b.query s.query s.args with e | rows
        · simp [NativeSegment.terminal, NativeSegment.Query, hu, hq]
        · rcases hcb : cb rows with _ | e <;>
            simp [NativeSegment.terminal, NativeSegment.Query, hu, hq, hcb]
      · simp [NativeSegment.terminal, NativeSegment.Query, hu]

/-- C1 witness: on each driver, a concrete already-used segment answers the
ErrAlreadyUsed sentinel with no backend call. -/
theorem c1_segment_single_use_witness :
    PgxSegment.terminal TerminalMethod.exec pgxB0 pgxSegUsed
        = (some GoErr.errAlreadyUsed, pgxSegUsed, [])
    ∧ SqlSegment.terminal TerminalMethod.exec sqlB0 sqlSegUsed
        = (some GoErr.errAlreadyUsed, sqlSegUsed, [])
    ∧ NativeSegment.terminal TerminalMethod.exec natB0 natSegUsed
        = (some GoErr.errAlreadyUsed, natSegUsed, []) :=
  ⟨(c1_segment_single_use.1 TerminalMethod.exec pgxB0 pgxSegUsed).1 rfl,
    (c1_segment_single_use.2.1 TerminalMethod.exec sqlB0 sqlSegUsed).1 rfl,
    (c1_segment_single_use.2.2 TerminalMethod.exec natB0 natSegUsed).1 rfl⟩

/-! ## Concrete sessions and transaction backends for the witnesses -/

/-- A transaction backend whose Commit and Rollback succeed. -/
def txB0 : TxBackend := { txCommit := none, txRollback := none }

/-- A transaction backend whose Commit fails. -/
def txBfail : TxBackend := { txCommit := some (GoErr.backend 1), txRollback := none }

/-- Concrete pgx transaction options. -/
def pgxTxo0 : PgxTxOptions :=
  { isoLevel := "serializable", accessMode := "read write",
    deferrableMode := "not deferrable", beginQuery := "" }

/-- Concrete database/sql transaction options. -/
def sqlTxo0 : SqlTxOptions := { isolation := 0, readOnly := false }

/-- A pgx session opened without transaction options. -/
def pgxSessNoTx : PgxSession := { txOptions := none, tx := false, committed := false }

/-- A database/sql session opened without transaction options. -/
def sqlSessNoTx : SqlSession := { txOptions := none, tx := false, committed := false }

/-- A transactional pgx session, not yet committed. -/
def pgxSessTx : PgxSession := { txOptions := some pgxTxo0, tx := true, committed := false }

/-- A transactional database/sql session, not yet committed. -/
def sqlSessTx : SqlSession := { txOptions := some sqlTxo0, tx := true, committed := false }

/-- A transactional pgx session already marked committed. -/
def pgxSessCommitted : PgxSession :=
  { txOptions := some pgxTxo0, tx := true, committed := true }

/-- A transactional database/sql session already marked committed. -/
def sqlSessCommitted : SqlSession :=
  { txOptions := some sqlTxo0, tx := true, committed := true }

/-! ## pgxpool driver session (the fourth adapter, pgxpoolSession) -/

/-- pgxpoolSession: the pgxpool adapter shares pgxConfig with the pgx
driver; the session holds the resolved transaction options, whether a
non-nil transaction handle is held, and the committed flag. -/
structure PgxpoolSession where
  txOptions : Option PgxTxOptions
  tx : Bool
  committed : Bool
deriving DecidableEq, Repr

/-- pgxpoolSession.Commit: identical in shape to pgxSession.Commit — rejects
a session already marked committed with its own error, rejects a session
without transaction options, else delegates to tx.Commit and through the
deferred function marks the session committed whatever the backend
answered. -/
def PgxpoolSession.Commit (b : TxBackend) (s : PgxpoolSession) :
    Option GoErr × PgxpoolSession × List SessCall :=
  if s.committed then
    (some (GoErr.errString "cannot commit a session that has already been committed"), s, [])
  else if s.txOptions = none then
    (some (GoErr.errString "cannot commit without transaction"), s, [])
  else
    (b.txCommit, { s with committed := true }, [SessCall.txCommit])

/-- pgxpoolSession.Rollback: rejects a session without transaction options,
else delegates to tx.Rollback. -/
def PgxpoolSession.Rollback (b : TxBackend) (s : PgxpoolSession) :
    Option GoErr × PgxpoolSession × List SessCall :=
  if s.txOptions = none then
    (some (GoErr.errString "cannot rollback without transaction"), s, [])
  else
    (b.txRollback, s, [SessCall.txRollback])

/-- A transactional pgxpool session already marked committed. -/
def pgxpoolSessCommitted : PgxpoolSession :=
  { txOptions := some pgxTxo0, tx := true, committed := true }

/-! ## C2 -/

/-- C2: a pgx or database/sql session opened without transaction options
answers Commit with the error whose message is exactly "cannot commit
without transaction" and Rollback with "cannot rollback without
transaction" (GoErr.message of GoErr.errString is the string itself), while
the ClickHouse native session answers nil to both regardless of state. -/
theorem c2_commit_rollback_require_transaction :
    (∀ (b : TxBackend) (s : PgxSession), s.txOptions = none → s.committed = false →
      (PgxSession.Commit b s).1 = some (GoErr.errString "cannot commit without transaction")
      ∧ (PgxSession.Rollback b s).1
          = some (GoErr.errString "cannot rollback without transaction"))
    ∧ (∀ (b : TxBackend) (s : SqlSession), s.txOptions = none →
      (SqlSession.Commit b s).1 = some (GoErr.errString "cannot commit without transaction")
      ∧ (SqlSession.Rollback b s).1
          = some (GoErr.errString "cannot rollback without transaction"))
    ∧ (∀ (s : NativeSession),
      (NativeSession.Commit s).1 = none ∧ (NativeSession.Rollback s).1 = none) := by
  refine ⟨fun b s h1 h2 => ⟨?_, ?_⟩, fun b s h1 => ⟨?_, ?_⟩, fun s => ⟨rfl, rfl⟩⟩
  · simp [PgxSession.Commit, h1, h2]
  · simp [PgxSession.Rollback, h1]
  · simp [SqlSession.Commit, h1]
  · simp [SqlSession.Rollback, h1]

/-- C2 witness: concrete non-transactional pgx and database/sql sessions and
a concrete native session. -/
theorem c2_commit_rollback_require_transaction_witness :
    ((PgxSession.Commit txB0 pgxSessNoTx).1
        = some (GoErr.errString "cannot commit without transaction")
      ∧ (PgxSession.Rollback txB0 pgxSessNoTx).1
        = some (GoErr.errString "cannot rollback without transaction"))
    ∧ ((SqlSession.Commit txB0 sqlSessNoTx).1
        = some (GoErr.errString "cannot commit without transaction")
      ∧ (SqlSession.Rollback txB0 sqlSessNoTx).1
        = some (GoErr.errString "cannot rollback without transaction"))
    ∧ ((NativeSession.Commit { committed := false }).1 = none
      ∧ (NativeSession.Rollback { committed := false }).1 = none) :=
  ⟨c2_commit_rollback_require_transaction.1 txB0 pgxSessNoTx rfl rfl,
    c2_commit_rollback_require_transaction.2.1 txB0 sqlSessNoTx rfl,
    c2_commit_rollback_require_transaction.2.2 { committed := false }⟩

/-! ## C9 -/

/-- C9 counterexample: the claim says exactly one backend adapter guards
against double commit with its own error, naming pgx; but the pgxpool
adapter guards identically.  At a concrete committed session, both the pgx
and the pgxpool Commit return the same "cannot commit a session that has
already been committed" error with no backend call, so at least two
adapters guard — while the database/sql Commit, as the claim says,
delegates to the backend again. -/
theorem c9_counterexample :
    PgxpoolSession.Commit txBfail pgxpoolSessCommitted
      = (some (GoErr.errString "cannot commit a session that has already been committed"),
        pgxpoolSessCommitted, [])
    ∧ PgxSession.Commit txBfail pgxSessCommitted
      = (some (GoErr.errString "cannot commit a session that has already been committed"),
        pgxSessCommitted, [])
    ∧ SqlSession.Commit txBfail sqlSessCommitted
      = (some (GoErr.backend 1), sqlSessCommitted, [SessCall.txCommit]) := by
  refine ⟨rfl, rfl, rfl⟩

/-- C9 amended: two backend adapters guard against double commit with their
own error — on the pgx and pgxpool drivers, Commit on a session whose
committed flag is already true returns "cannot commit a session that has
already been committed" without invoking the backend — while on the
database/sql driver a second Commit performs no such guard and delegates to
the backend transaction handle again. -/
theorem c9_double_commit_guard_pgx_and_pgxpool :
    (∀ (b : TxBackend) (s : PgxSession), s.committed = true →
      PgxSession.Commit b s
        = (some (GoErr.errString "cannot commit a session that has already been committed"),
          s, []))
    ∧ (∀ (b : TxBackend) (s : PgxpoolSession), s.committed = true →
      PgxpoolSession.Commit b s
        = (some (GoErr.errString "cannot commit a session that has already been committed"),
          s, []))
    ∧ (∀ (b : TxBackend) (s : SqlSession) (o : SqlTxOptions), s.txOptions = some o →
      SqlSession.Commit b s
        = (b.txCommit, { s with committed := true }, [SessCall.txCommit])) := by
  refine ⟨fun b s h => ?_, fun b s h => ?_, fun b s o h => ?_⟩
  · simp [PgxSession.Commit, h]
  · simp [PgxpoolSession.Commit, h]
  · simp [SqlSession.Commit, h]

/-- C9 amended witness: committed pgx and pgxpool sessions are rejected
without a backend call; a committed database/sql session still reaches the
backend Commit. -/
theorem c9_double_commit_guard_pgx_and_pgxpool_witness :
    PgxSession.Commit txBfail pgxSessCommitted
      = (some (GoErr.errString "cannot commit a session that has already been committed"),
        pgxSessCommitted, [])
    ∧ PgxpoolSession.Commit txBfail pgxpoolSessCommitted
      = (some (GoErr.errString "cannot commit a session that has already been committed"),
        pgxpoolSessCommitted, [])
    ∧ SqlSession.Commit txBfail sqlSessCommitted
      = (some (GoErr.backend 1), sqlSessCommitted, [SessCall.txCommit]) :=
  ⟨c9_double_commit_guard_pgx_and_pgxpool.1 txBfail pgxSessCommitted rfl,
    c9_double_commit_guard_pgx_and_pgxpool.2.1 txBfail pgxpoolSessCommitted rfl,
    c9_double_commit_guard_pgx_and_pgxpool.2.2 txBfail sqlSessCommitted sqlTxo0 rfl⟩

/-! ## C10 -/

/-- C10: on both the pgx and database/sql drivers, Commit on a transactional
session sets the committed flag through the deferred function even when the
backend commit fails (the returned error is exactly the backend answer);
consequently on pgx every later Commit of that session returns the
already-committed error without reaching the backend. -/
theorem c10_commit_sets_flag_even_on_backend_error :
    (∀ (b : TxBackend) (s : PgxSession) (o : PgxTxOptions),
      s.committed = false → s.txOptions = some o →
      (PgxSession.Commit b s).2.1.committed = true
      ∧ (PgxSession.Commit b s).1 = b.txCommit)
    ∧ (∀ (b : TxBackend) (s : SqlSession) (o : SqlTxOptions), s.txOptions = some o →
      (SqlSession.Commit b s).2.1.committed = true
      ∧ (SqlSession.Commit b s).1 = b.txCommit)
    ∧ (∀ (b : TxBackend) (s : PgxSession), s.committed = true →
      PgxSession.Commit b s
        = (some (GoErr.errString "cannot commit a session that has already been committed"),
          s, [])) := by
  refine ⟨fun b s o h1 h2 => ?_, fun b s o h => ?_, fun b s h => ?_⟩
  · simp [PgxSession.Commit, h1, h2]
  · simp [SqlSession.Commit, h]
  · simp [PgxSession.Commit, h]

/-- C10 witness: with a backend whose Commit fails, a transactional pgx
session still comes out with committed = true and the backend error, and
committing it again is rejected without a backend call. -/
theorem c10_commit_sets_flag_even_on_backend_error_witness :
    ((PgxSession.Commit txBfail pgxSessTx).2.1.committed = true
      ∧ (PgxSession.Commit txBfail pgxSessTx).1 = some (GoErr.backend 1))
    ∧ (SqlSession.Commit txBfail sqlSessTx).2.1.committed = true
    ∧ PgxSession.Commit txBfail pgxSessCommitted
      = (some (GoErr.errString "cannot commit a session that has already been committed"),
        pgxSessCommitted, []) :=
  ⟨c10_commit_sets_flag_even_on_backend_error.1 txBfail pgxSessTx pgxTxo0 rfl rfl,
    (c10_commit_sets_flag_even_on_backend_error.2.1 txBfail sqlSessTx sqlTxo0 rfl).1,
    c10_commit_sets_flag_even_on_backend_error.2.2 txBfail pgxSessCommitted rfl⟩

/-! ## C7 -/

/-- A begin backend whose BeginTx succeeds. -/
def pgxBB0 : PgxBeginBackend := { beginTx := fun _ => Except.ok () }

/-- A database/sql begin backend whose BeginTx succeeds. -/
def sqlBB0 : SqlBeginBackend := { beginTx := fun _ => Except.ok () }

/-- C7: Begin folds the supplied options left to right (a later transaction
option overwrites an earlier one); with transaction options resolved, the
backend begin primitive is invoked with exactly those options — its failure
is returned with no session, its success yields a transactional session —
and without transaction options a session with a nil transaction handle is
returned and the begin primitive is never invoked.  The ClickHouse native
Begin folds its (field-less) options and never touches the backend. -/
theorem c7_begin_resolves_options :
    (∀ (opts : List (PgxConfig → PgxConfig)) (o1 o2 : PgxTxOptions),
      pgxResolveConfig (opts ++ [WithPGXTxOptions o1, WithPGXTxOptions o2])
        = { txOptions := some o2 })
    ∧ (∀ (b : PgxBeginBackend) (opts : List (PgxConfig → PgxConfig)),
      (pgxResolveConfig opts).txOptions = none →
      pgxConnBegin b opts
        = (Except.ok { txOptions := none, tx := false, committed := false }, []))
    ∧ (∀ (b : PgxBeginBackend) (opts : List (PgxConfig → PgxConfig)) (o : PgxTxOptions),
      (pgxResolveConfig opts).txOptions = some o →
      (∀ e, b.beginTx o = Except.error e →
        pgxConnBegin b opts = (Except.error e, [BeginCall.pgxBeginTx o]))
      ∧ (∀ u, b.beginTx o = Except.ok u →
        pgxConnBegin b opts
          = (Except.ok { txOptions := some o, tx := true, committed := false },
            [BeginCall.pgxBeginTx o])))
    ∧ (∀ (opts : List (SqlConfig → SqlConfig)) (o1 o2 : SqlTxOptions),
      sqlResolveConfig (opts ++ [WithSQLTxOptions o1, WithSQLTxOptions o2])
        = { txOptions := some o2 })
    ∧ (∀ (b : SqlBeginBackend) (opts : List (SqlConfig → SqlConfig)),
      (sqlResolveConfig opts).txOptions = none →
      sqlConnBegin b opts
        = (Except.ok { txOptions := none, tx := false, committed := false }, []))
    ∧ (∀ (b : SqlBeginBackend) (opts : List (SqlConfig → SqlConfig)) (o : SqlTxOptions),
      (sqlResolveConfig opts).txOptions = some o →
      (∀ e, b.beginTx o = Except.error e →
        sqlConnBegin b opts = (Except.error e, [BeginCall.sqlBeginTx o]))
      ∧ (∀ u, b.beginTx o = Except.ok u →
        sqlConnBegin b opts
          = (Except.ok { txOptions := some o, tx := true, committed := false },
            [BeginCall.sqlBeginTx o])))
    ∧ (∀ (opts : List (NativeConfig → NativeConfig)),
      nativeConnBegin opts = (Except.ok { committed := false }, [])) := by
  refine ⟨fun opts o1 o2 => ?_, fun b opts h => ?_, fun b opts o h => ⟨fun e he => ?_, fun u hu => ?_⟩,
    fun opts o1 o2 => ?_, fun b opts h => ?_, fun b opts o h => ⟨fun e he => ?_, fun u hu => ?_⟩,
    fun opts => rfl⟩
  · simp [pgxResolveConfig, WithPGXTxOptions]
  · simp [pgxConnBegin, h]
  · simp [pgxConnBegin, h, he]
  · simp [pgxConnBegin, h, hu]
  · simp [sqlResolveConfig, WithSQLTxOptions]
  · simp [sqlConnBegin, h]
  · simp [sqlConnBegin, h, he]
  · simp [sqlConnBegin, h, hu]

/-- C7 witness: with no options the pgx and database/sql Begin return a
non-transactional session without invoking the backend; overwriting options
resolve to the last one. -/
theorem c7_begin_resolves_options_witness :
    pgxConnBegin pgxBB0 []
      = (Except.ok { txOptions := none, tx := false, committed := false }, [])
    ∧ sqlConnBegin sqlBB0 []
      = (Except.ok { txOptions := none, tx := false, committed := false }, [])
    ∧ pgxResolveConfig [WithPGXTxOptions pgxTxo0,
        WithPGXTxOptions { pgxTxo0 with beginQuery := "BEGIN" }]
      = { txOptions := some { pgxTxo0 with beginQuery := "BEGIN" } } :=
  ⟨c7_begin_resolves_options.2.1 pgxBB0 [] rfl,
    c7_begin_resolves_options.2.2.2.2.1 sqlBB0 [] rfl,
    c7_begin_resolves_options.1 [] pgxTxo0 { pgxTxo0 with beginQuery := "BEGIN" }⟩

/-! ## C8 -/

/-- C8: each adopt-existing-handle constructor rejects a nil handle with an
error whose message contains "nil" ("conn is nil" or "db is nil"), and
octobe.New with that Open function produces no instance and returns exactly
that error. -/
theorem c8_open_with_nil_handle :
    (OpenPGXWithConn none () = Except.error (GoErr.errString "conn is nil")
      ∧ New (OpenPGXWithConn none) = Except.error (GoErr.errString "conn is nil")
      ∧ ∃ p q, (GoErr.errString "conn is nil").message = p ++ "nil" ++ q)
    ∧ (OpenWithConn none () = Except.error (GoErr.errString "db is nil")
      ∧ New (OpenWithConn none) = Except.error (GoErr.errString "db is nil")
      ∧ ∃ p q, (GoErr.errString "db is nil").message = p ++ "nil" ++ q)
    ∧ (OpenNativeWithConn none () = Except.error (GoErr.errString "conn is nil")
      ∧ New (OpenNativeWithConn none) = Except.error (GoErr.errString "conn is nil")
      ∧ ∃ p q, (GoErr.errString "conn is nil").message = p ++ "nil" ++ q) := by
  refine ⟨⟨rfl, rfl, "conn is ", "", ?_⟩, ⟨rfl, rfl, "db is ", "", ?_⟩,
    ⟨rfl, rfl, "conn is ", "", ?_⟩⟩ <;> rfl

/-! ## C3 -/

/-- Environment refuting C3 as stated: the callback performs no operations
and returns nil, but the session Commit fails. -/
def c3Env : STEnv :=
  { beginErr := none, cbOps := [], cbOutcome := CbOutcome.ret none,
    commitErr := some (GoErr.backend 3), rollbackErr := none }

/-- C3 counterexample: with a nil-returning callback and a failing Commit,
the deferred cleanup of StartTransaction sees the non-nil named return and
calls Rollback, so the observed sequence is Begin, Commit, Rollback — not
the claimed Begin then Commit with Rollback never called. -/
theorem c3_counterexample :
    (StartTransaction c3Env).2 = [Ev.begin, Ev.commit, Ev.rollback]
    ∧ Ev.rollback ∈ (StartTransaction c3Env).2 := by
  decide

/-- C3 amended: when Begin succeeds and the callback performs its operations
and returns nil, Commit is called after the operations; if Commit succeeds
the sequence is exactly Begin, operations, Commit and Rollback is never
called, while if Commit fails a Rollback follows it and the commit error is
returned. -/
theorem c3_commit_on_success (env : STEnv)
    (h1 : env.beginErr = none) (h2 : env.cbOutcome = CbOutcome.ret none) :
    (env.commitErr = none →
      (StartTransaction env).2 = Ev.begin :: env.cbOps.map Ev.op ++ [Ev.commit]
      ∧ Ev.rollback ∉ (StartTransaction env).2
      ∧ (StartTransaction env).1 = STResult.ret none)
    ∧ (∀ ce, env.commitErr = some ce →
      (StartTransaction env).2
          = Ev.begin :: env.cbOps.map Ev.op ++ [Ev.commit, Ev.rollback]
      ∧ (StartTransaction env).1 = STResult.ret (some ce)) := by
  constructor
  · intro hc
    simp [StartTransaction, h1, h2, hc]
  · intro ce hc
    simp [StartTransaction, h1, h2, hc]

/-- Environment of the C3 witness: two operations, nil callback return,
successful commit. -/
def c3EnvOk : STEnv :=
  { beginErr := none, cbOps := [1, 2], cbOutcome := CbOutcome.ret none,
    commitErr := none, rollbackErr := none }

/-- C3 amended witness: two concrete operations, successful commit. -/
theorem c3_commit_on_success_witness :
    (StartTransaction c3EnvOk).2 = [Ev.begin, Ev.op 1, Ev.op 2, Ev.commit]
    ∧ Ev.rollback ∉ (StartTransaction c3EnvOk).2 := by
  have h := (c3_commit_on_success c3EnvOk rfl rfl).1 rfl
  exact ⟨h.1, h.2.1⟩

/-! ## C4 -/

/-- C4: when Begin succeeds and the callback returns a non-nil error after
its operations, the observed sequence is Begin, the operations, Rollback;
Commit is never called, and StartTransaction returns the identical callback
error. -/
theorem c4_rollback_on_error (env : STEnv) (e : GoErr)
    (h1 : env.beginErr = none) (h2 : env.cbOutcome = CbOutcome.ret (some e)) :
    (StartTransaction env).1 = STResult.ret (some e)
    ∧ (StartTransaction env).2 = Ev.begin :: env.cbOps.map Ev.op ++ [Ev.rollback]
    ∧ Ev.commit ∉ (StartTransaction env).2 := by
  simp [StartTransaction, h1, h2]

/-- Environment of the C4 witness: one operation, callback fails with
backend error 9. -/
def c4Env : STEnv :=
  { beginErr := none, cbOps := [5], cbOutcome := CbOutcome.ret (some (GoErr.backend 9)),
    commitErr := none, rollbackErr := none }

/-- C4 witness: one concrete operation, callback fails with backend error 9;
the error comes back unchanged and the trace is Begin, op, Rollback. -/
theorem c4_rollback_on_error_witness :
    (StartTransaction c4Env).1 = STResult.ret (some (GoErr.backend 9))
    ∧ (StartTransaction c4Env).2 = [Ev.begin, Ev.op 5, Ev.rollback] := by
  have h := c4_rollback_on_error c4Env (GoErr.backend 9) rfl rfl
  exact ⟨h.1, h.2.1⟩

/-! ## C5 -/

/-- C5: when Begin succeeds and the callback panics after its operations,
Rollback is called (its error ignored), Commit is never called, and the
panic propagates out of StartTransaction with the original payload,
never converted into a returned error. -/
theorem c5_rollback_on_panic (env : STEnv) (p : String)
    (h1 : env.beginErr = none) (h2 : env.cbOutcome = CbOutcome.panicked p) :
    (StartTransaction env).1 = STResult.panicked p
    ∧ (StartTransaction env).2 = Ev.begin :: env.cbOps.map Ev.op ++ [Ev.rollback]
    ∧ Ev.commit ∉ (StartTransaction env).2
    ∧ ∀ r, (StartTransaction env).1 ≠ STResult.ret r := by
  refine ⟨?_, ?_, ?_, ?_⟩ <;> simp [StartTransaction, h1, h2]

/-- Environment of the C5 witness: the callback panics with the payload of
the regression test after no operations. -/
def c5Env : STEnv :=
  { beginErr := none, cbOps := [], cbOutcome := CbOutcome.panicked "something went wrong",
    commitErr := none, rollbackErr := none }

/-- C5 witness: the panic payload comes back unchanged and the trace is
Begin, Rollback. -/
theorem c5_rollback_on_panic_witness :
    (StartTransaction c5Env).1 = STResult.panicked "something went wrong"
    ∧ (StartTransaction c5Env).2 = [Ev.begin, Ev.rollback] := by
  have h := c5_rollback_on_panic c5Env "something went wrong" rfl rfl
  exact ⟨h.1, h.2.1⟩

/-! ## C6 -/

/-- A pgx backend whose query yields a cursor with a non-nil terminal
error. -/
def c6Backend : PgxBackend :=
  { connExec := fun _ _ => Except.ok 0, txExec := fun _ _ => Except.ok 0,
    connQueryRowScan := fun _ _ => none, txQueryRowScan := fun _ _ => none,
    connQuery := fun _ _ => Except.ok { err := some (GoErr.backend 7), closeErr := none },
    txQuery := fun _ _ => Except.ok { err := some (GoErr.backend 7), closeErr := none } }

/-- A fresh non-transactional pgx segment. -/
def c6Segment : PgxSegment := { query := "SELECT 1", args := [], used := false, tx := false }

/-- C6 counterexample: on the pgx driver, with a cursor whose terminal error
Err() is backend error 7 and a callback returning nil, Query returns nil —
not the cursor terminal error the claim requires of every driver. -/
theorem c6_counterexample :
    (PgxSegment.Query c6Backend (fun _ => none) c6Segment).1 = none
    ∧ (c6Backend.connQuery "SELECT 1" []).map RowsVal.err
        = Except.ok (some (GoErr.backend 7))
    ∧ (PgxSegment.Query c6Backend (fun _ => none) c6Segment).1
        ≠ some (GoErr.backend 7) := by
  refine ⟨rfl, rfl, ?_⟩
  decide

/-- C6 amended: on every driver a failed backend query returns that error
with the callback never invoked, and a successful query passes the cursor to
the callback and closes it afterwards; the callback error is then
propagated as follows — pgx returns exactly the callback result (nil when
the callback returns nil, without consulting the cursor Err()); database/sql
wraps a non-nil callback error together with the close result and returns
the Close() error when the callback returns nil; only the ClickHouse native
driver returns the cursor Err() when the callback returns nil. -/
theorem c6_query_cursor_contract :
    (∀ (b : PgxBackend) (cb : RowsVal → Option GoErr) (s : PgxSegment), s.used = false →
      (∀ e, s.queryPrim b = Except.error e →
        PgxSegment.Query b cb s = (some e, { s with used := true }, [s.queryCallEv]))
      ∧ (∀ rows, s.queryPrim b = Except.ok rows →
        (PgxSegment.Query b cb s).2.2 = [s.queryCallEv, PgxCall.rowsClose]
        ∧ (PgxSegment.Query b cb s).1 = cb rows))
    ∧ (∀ (b : SqlBackend) (cb : RowsVal → Option GoErr) (s : SqlSegment), s.used = false →
      (∀ e, s.queryPrim b = Except.error e →
        SqlSegment.Query b cb s = (some e, { s with used := true }, [s.queryCallEv]))
      ∧ (∀ rows, s.queryPrim b = Except.ok rows →
        (SqlSegment.Query b cb s).2.2 = [s.queryCallEv, SqlCall.rowsClose]
        ∧ (SqlSegment.Query b cb s).1
            = (match cb rows with
              | some e =>
                match rows.closeErr with
                | some e2 => some (GoErr.dualWrap e e2)
                | none => some (GoErr.dualWrapNilClose e)
              | none => rows.closeErr)))
    ∧ (∀ (b : NativeBackend) (cb : RowsVal → Option GoErr) (s : NativeSegment),
      s.used = false →
      (∀ e, b.query s.query s.args = Except.error e →
        NativeSegment.Query b cb s
          = (some e, { s with used := true }, [NativeCall.query s.query s.args]))
      ∧ (∀ rows, b.query s.query s.args = Except.ok rows →
        (NativeSegment.Query b cb s).2.2
            = [NativeCall.query s.query s.args, NativeCall.rowsClose]
        ∧ (NativeSegment.Query b cb s).1
            = (match cb rows with | some e => some e | none => rows.err))) := by
  refine ⟨fun b cb s hu => ⟨fun e he => ?_, fun rows hr => ?_⟩,
    fun b cb s hu => ⟨fun e he => ?_, fun rows hr => ?_⟩,
    fun b cb s hu => ⟨fun e he => ?_, fun rows hr => ?_⟩⟩
  · simp [PgxSegment.Query, hu, he]
  · rcases hcb : cb rows with _ | e <;> simp [PgxSegment.Query, hu, hr, hcb]
  · simp [SqlSegment.Query, hu, he]
  · rcases hcb : cb rows with _ | e
    · simp [SqlSegment.Query, hu, hr, hcb]
    · rcases hce : rows.closeErr with _ | e2 <;>
        simp [SqlSegment.Query, hu, hr, hcb, hce]
  · simp [NativeSegment.Query, hu, he]
  · rcases hcb : cb rows with _ | e <;> simp [NativeSegment.Query, hu, hr, hcb]

/-- C6 amended witness: the concrete pgx segment of the counterexample
closes its cursor and returns the nil callback result. -/
theorem c6_query_cursor_contract_witness :
    (PgxSegment.Query c6Backend (fun _ => none) c6Segment).2.2
        = [PgxCall.connQuery "SELECT 1" [], PgxCall.rowsClose]
    ∧ (PgxSegment.Query c6Backend (fun _ => none) c6Segment).1 = none := by
  have h := ((c6_query_cursor_contract.1 c6Backend (fun _ => none) c6Segment rfl).2
    { err := some (GoErr.backend 7), closeErr := none } rfl)
  exact ⟨h.1, h.2⟩

end Octobe
